import Mathlib

/-!
Shallow embedding of the AlertManager alert-dispatch subsystem
(`src/alerts.ts` of the vectorgov SDK) and proofs about its behaviour.

Modelling conventions:
* JavaScript timestamps (`Date.now()`, milliseconds) are `Int`; the JS
  falsiness of the number `0` in `if (!lastSent)` is modelled explicitly.
* The cooldown `Map<string, number>` is an association list with
  `Map.set` semantics (`updateCooldown` replaces the entry for the key).
* Side-effecting channel behaviour (the custom log handler possibly
  throwing, the webhook `fetch` outcome) is supplied by an explicit
  environment `SendEnv`, one outcome per `send` call.
* `Record<string, unknown>` detail maps are association lists of
  string/number values, in insertion order.
-/

/-- Embedding of `AlertSeverity` from `types.ts`: `'info' | 'warning' | 'error' | 'critical'`. -/
inductive AlertSeverity where
  | info
  | warning
  | error
  | critical
deriving DecidableEq, Repr

/-- Embedding of `SEVERITY_ORDER.indexOf` — position in `['info','warning','error','critical']`. -/
def severityRank : AlertSeverity → Nat
  | AlertSeverity.info => 0
  | AlertSeverity.warning => 1
  | AlertSeverity.error => 2
  | AlertSeverity.critical => 3

/-- Embedding of `AlertChannel` from `types.ts`: `'log' | 'webhook'`. -/
inductive AlertChannel where
  | log
  | webhook
deriving DecidableEq, Repr

/-- Embedding of `WebhookType` from `types.ts`: `'slack' | 'discord' | 'generic'`. -/
inductive WebhookType where
  | slack
  | discord
  | generic
deriving DecidableEq, Repr

/-- A value stored in a `details: Record<string, unknown>` map. -/
inductive DetailValue where
  | str : String → DetailValue
  | num : Int → DetailValue
deriving DecidableEq, Repr

/-- Embedding of `AlertConfig` from `types.ts`: every field optional. -/
structure AlertConfig where
  minSeverity : Option AlertSeverity := none
  webhookUrl : Option String := none
  webhookEnabled : Option Bool := none
  webhookType : Option WebhookType := none
  cooldownSeconds : Option Int := none
  channels : Option (List AlertChannel) := none
deriving DecidableEq, Repr

/-- Embedding of `Required<AlertConfig>` — the resolved `this.config` of an `AlertManager`. -/
structure ResolvedConfig where
  minSeverity : AlertSeverity
  webhookUrl : String
  webhookEnabled : Bool
  webhookType : WebhookType
  cooldownSeconds : Int
  channels : List AlertChannel
deriving DecidableEq, Repr

/-- The `AlertManager` constructor: apply the documented defaults, then push
`'webhook'` onto `channels` when the webhook is enabled, the URL is truthy
(non-empty), and the list does not already contain it. -/
def mkAlertManager (config : AlertConfig) : ResolvedConfig :=
  let base : ResolvedConfig :=
    { minSeverity := config.minSeverity.getD AlertSeverity.warning
      webhookUrl := config.webhookUrl.getD ""
      webhookEnabled := config.webhookEnabled.getD false
      webhookType := config.webhookType.getD WebhookType.slack
      cooldownSeconds := config.cooldownSeconds.getD 60
      channels := config.channels.getD [AlertChannel.log] }
  if base.webhookEnabled && !(base.webhookUrl == "") && !(base.channels.contains AlertChannel.webhook) then
    { base with channels := base.channels ++ [AlertChannel.webhook] }
  else
    base

/-- Embedding of `SendAlertOptions` from `types.ts`. -/
structure SendAlertOptions where
  title : String
  message : String
  severity : Option AlertSeverity := none
  source : Option String := none
  details : List (String × DetailValue) := []
  bypassCooldown : Bool := false
deriving DecidableEq, Repr

/-- Embedding of `Alert` from `types.ts`. -/
structure Alert where
  alertId : String
  title : String
  message : String
  severity : AlertSeverity
  source : String
  details : List (String × DetailValue)
  timestamp : String
deriving DecidableEq, Repr

/-- Embedding of `AlertResult` from `types.ts`. -/
structure AlertResult where
  sent : Bool
  alertId : Option String
  channels : List AlertChannel
  error : Option String
deriving DecidableEq, Repr

/-- The result both early returns of `send` produce: `{ sent: false, channels: [] }`
with `alertId` and `error` left `undefined`. -/
def emptyResult : AlertResult :=
  { sent := false, alertId := none, channels := [], error := none }

/-- Behaviour of the log channel for one `send` call: either no custom handler is
registered (the `console.*` default, which never throws), or a registered handler
returns normally, or a registered handler throws an exception whose
`String(error)` rendering is the carried string. -/
inductive LogBehavior where
  | defaultConsole
  | handlerOk
  | handlerThrows : String → LogBehavior
deriving DecidableEq, Repr

/-- Outcome of the `fetch` call inside `sendToWebhook`, when one is attempted:
a 2xx response, a non-2xx response (which makes the internal `try` throw and the
internal `catch` return `false`), or a rejected promise / network error
(likewise caught internally). -/
inductive FetchBehavior where
  | ok
  | httpError : Int → String → FetchBehavior
  | networkError : String → FetchBehavior
deriving DecidableEq, Repr

/-- Per-call environment for `send`: the clock (`Date.now()` in ms), the
generated alert id and ISO timestamp, and the behaviour of the two
side-effecting channels. -/
structure SendEnv where
  now : Int
  alertId : String
  timestamp : String
  logB : LogBehavior
  fetchB : FetchBehavior
deriving DecidableEq, Repr

/-- The `cooldownCache : Map<string, number>` field. -/
def CooldownCache := List (String × Int)
deriving DecidableEq, Repr

/-- Embedding of `shouldSend`: `SEVERITY_ORDER.indexOf(severity) >= SEVERITY_ORDER.indexOf(minSeverity)`. -/
def shouldSend (config : ResolvedConfig) (severity : AlertSeverity) : Bool :=
  decide (severityRank severity ≥ severityRank config.minSeverity)

/-- Embedding of `isInCooldown`: look up the key's last-send timestamp; `if (!lastSent) return false`
(JS falsiness: a missing entry or the number 0); otherwise
`(Date.now() - lastSent) < cooldownSeconds * 1000`. -/
def isInCooldown (config : ResolvedConfig) (cache : CooldownCache) (now : Int) (alertType : String) : Bool :=
  match List.lookup alertType cache with
  | none => false
  | some lastSent =>
    if lastSent = 0 then false
    else decide (now - lastSent < config.cooldownSeconds * 1000)

/-- Embedding of `updateCooldown`: `this.cooldownCache.set(alertType, Date.now())` —
replace the entry for the key. -/
def updateCooldown (cache : CooldownCache) (alertType : String) (now : Int) : CooldownCache :=
  (alertType, now) :: (List.filter (fun p => !(p.1 == alertType)) cache)

/-- Resolved severity of a `send` call: `options.severity ?? 'warning'`. -/
def resolvedSeverity (options : SendAlertOptions) : AlertSeverity :=
  options.severity.getD AlertSeverity.warning

/-- Resolved source of a `send` call: `options.source ?? 'unknown'`. -/
def resolvedSource (options : SendAlertOptions) : String :=
  options.source.getD "unknown"

/-- The AlertType cooldown key: `` `${options.source ?? 'unknown'}:${options.title}` ``. -/
def alertKey (options : SendAlertOptions) : String :=
  resolvedSource options ++ ":" ++ options.title

/-- Embedding of `createAlert`: build the `Alert` object, applying the documented defaults. -/
def createAlert (env : SendEnv) (options : SendAlertOptions) : Alert :=
  { alertId := env.alertId
    title := options.title
    message := options.message
    severity := resolvedSeverity options
    source := resolvedSource options
    details := options.details
    timestamp := env.timestamp }

/-- Embedding of `sendToLog`: formats the log line and dispatches it; with a registered
handler the handler may throw (`Except.error` carries `String(error)`),
otherwise the `console.*` path never does. Returns `true` on the normal path. -/
def sendToLog (logB : LogBehavior) : Except String Bool :=
  match logB with
  | LogBehavior.defaultConsole => Except.ok true
  | LogBehavior.handlerOk => Except.ok true
  | LogBehavior.handlerThrows e => Except.error e

/-- Outcome of `sendToWebhook`: whether it returned `true`, and whether a
`fetch` (network POST) was attempted at all. -/
structure WebhookOutcome where
  success : Bool
  fetched : Bool
deriving DecidableEq, Repr

/-- Embedding of `sendToWebhook`: `if (!this.config.webhookUrl) return false;` with no network
call; otherwise POST once and return `response.ok`; every failure is caught
internally (logged to the console) and turned into `false` — the function
never throws to its caller. -/
def sendToWebhook (config : ResolvedConfig) (fetchB : FetchBehavior) : WebhookOutcome :=
  if config.webhookUrl == "" then
    { success := false, fetched := false }
  else
    match fetchB with
    | FetchBehavior.ok => { success := true, fetched := true }
    | FetchBehavior.httpError _ _ => { success := false, fetched := true }
    | FetchBehavior.networkError _ => { success := false, fetched := true }

/-- Accumulator of the fan-out loop in `send`: the result being built, the
channels iterated so far, and whether any webhook POST was attempted. -/
structure FanoutState where
  result : AlertResult
  attempted : List AlertChannel
  fetched : Bool
deriving DecidableEq, Repr

/-- One iteration of the fan-out loop of `send`: try the channel inside
`try/catch`; on success push the channel and set `sent`; a thrown exception
(only a throwing custom log handler can produce one) is caught and its
rendering stored in `result.error`. -/
def fanoutStep (config : ResolvedConfig) (env : SendEnv) (st : FanoutState) (ch : AlertChannel) : FanoutState :=
  let st := { st with attempted := st.attempted ++ [ch] }
  match ch with
  | AlertChannel.log =>
    match sendToLog env.logB with
    | Except.ok b =>
      if b then
        { st with result := { st.result with
            channels := st.result.channels ++ [AlertChannel.log], sent := true } }
      else st
    | Except.error e =>
      { st with result := { st.result with error := some e } }
  | AlertChannel.webhook =>
    let outcome := sendToWebhook config env.fetchB
    let st := { st with fetched := st.fetched || outcome.fetched }
    if outcome.success then
      { st with result := { st.result with
          channels := st.result.channels ++ [AlertChannel.webhook], sent := true } }
    else st

/-- The `for (const channel of this.config.channels)` loop. -/
def fanout (config : ResolvedConfig) (env : SendEnv) (chs : List AlertChannel) (st : FanoutState) : FanoutState :=
  chs.foldl (fanoutStep config env) st

/-- Everything observable about one `send` call: the returned `AlertResult`,
the cooldown cache afterwards, the channels the loop iterated, and whether a
webhook POST was attempted. -/
structure SendOutcome where
  result : AlertResult
  cooldown : CooldownCache
  attempted : List AlertChannel
  webhookFetched : Bool
deriving DecidableEq, Repr

/-- Embedding of `AlertManager.send`: severity gate, cooldown gate, alert construction,
channel fan-out, and the sent-conditional cooldown update, in source order. -/
def send (config : ResolvedConfig) (cache : CooldownCache) (env : SendEnv) (options : SendAlertOptions) : SendOutcome :=
  if shouldSend config (resolvedSeverity options) then
    if !options.bypassCooldown && isInCooldown config cache env.now (alertKey options) then
      { result := emptyResult, cooldown := cache, attempted := [], webhookFetched := false }
    else
      let alert := createAlert env options
      let st := fanout config env config.channels
        { result := { emptyResult with alertId := some alert.alertId }
          attempted := [], fetched := false }
      { result := st.result
        cooldown := if st.result.sent then updateCooldown cache (alertKey options) env.now else cache
        attempted := st.attempted
        webhookFetched := st.fetched }
  else
    { result := emptyResult, cooldown := cache, attempted := [], webhookFetched := false }

/-- Options built by `alertRateLimitExceeded`: the API key is truncated with
`substring(0, 10)` in both the message and the `api_key_prefix` detail. -/
def alertRateLimitOptions (apiKey : String) (limit current : Int) (details : List (String × DetailValue)) : SendAlertOptions :=
  { title := "Rate Limit Excedido"
    message := "API key " ++ apiKey.take 10 ++ "... excedeu limite (" ++ toString current ++ "/" ++ toString limit ++ ")."
    severity := some AlertSeverity.warning
    source := some "rate_limiter"
    details := [("api_key_prefix", DetailValue.str (apiKey.take 10)),
                ("limit", DetailValue.num limit),
                ("current", DetailValue.num current)] ++ details
    bypassCooldown := false }

/-- Embedding of `alertRateLimitExceeded`: delegate to `send` with the options above. -/
def alertRateLimitExceeded (config : ResolvedConfig) (cache : CooldownCache) (env : SendEnv) (apiKey : String) (limit current : Int) (details : List (String × DetailValue)) : SendOutcome :=
  send config cache env (alertRateLimitOptions apiKey limit current details)

/-- Options built by `alertSecurityIncident`: always `critical`, source
`security`, `bypassCooldown: true`. -/
def securityIncidentOptions (incidentType description : String) (details : List (String × DetailValue)) : SendAlertOptions :=
  { title := "Incidente de Segurança: " ++ incidentType
    message := description
    severity := some AlertSeverity.critical
    source := some "security"
    details := ("incident_type", DetailValue.str incidentType) :: details
    bypassCooldown := true }

/-- Embedding of `alertSecurityIncident`: delegate to `send` with the options above. -/
def alertSecurityIncident (config : ResolvedConfig) (cache : CooldownCache) (env : SendEnv) (incidentType description : String) (details : List (String × DetailValue)) : SendOutcome :=
  send config cache env (securityIncidentOptions incidentType description details)

/-- Whether the log channel will report success in the given environment:
true on the default console path and when a registered handler returns
normally; false exactly when a registered handler throws. -/
def logDelivers (logB : LogBehavior) : Bool :=
  match logB with
  | LogBehavior.handlerThrows _ => false
  | _ => true

/-! ### Helper lemmas about the cooldown cache -/

theorem lookup_updateCooldown_self (cache : CooldownCache) (k : String) (v : Int) :
    List.lookup k (updateCooldown cache k v) = some v := by
  simp [updateCooldown, List.lookup]

theorem lookup_filter_ne (cache : CooldownCache) (k k' : String) (h : k' ≠ k) :
    List.lookup k' (List.filter (fun p => !(p.1 == k)) cache) = List.lookup k' cache := by
  induction cache with
  | nil => rfl
  | cons hd tl ih =>
    obtain ⟨a, b⟩ := hd
    by_cases hk : a = k
    · subst hk
      have hne : (k' == a) = false := beq_eq_false_iff_ne.mpr h
      simp [List.filter_cons, List.lookup, hne]
      exact ih
    · have hak : (a == k) = false := beq_eq_false_iff_ne.mpr hk
      by_cases hk' : k' = a
      · subst hk'
        simp [List.filter_cons, hak, List.lookup]
      · have h2 : (k' == a) = false := beq_eq_false_iff_ne.mpr hk'
        simp [List.filter_cons, hak, List.lookup, h2]
        exact ih

theorem lookup_updateCooldown_ne (cache : CooldownCache) (k k' : String) (v : Int) (h : k' ≠ k) :
    List.lookup k' (updateCooldown cache k v) = List.lookup k' cache := by
  have hne : (k' == k) = false := beq_eq_false_iff_ne.mpr h
  simp [updateCooldown, List.lookup, hne]
  exact lookup_filter_ne cache k k' h

/-! ### Helper lemmas about the fan-out loop -/

/-- Whether a channel reports success in the given environment:
the log channel succeeds unless a registered handler throws; the webhook
channel succeeds when `sendToWebhook` returns `true`. -/
def channelSucceeds (config : ResolvedConfig) (env : SendEnv) : AlertChannel → Bool
  | AlertChannel.log => logDelivers env.logB
  | AlertChannel.webhook => (sendToWebhook config env.fetchB).success

/-- Whether a channel triggers a network `fetch`: only the webhook channel,
and only when the URL is non-empty. -/
def channelFetches (config : ResolvedConfig) : AlertChannel → Bool
  | AlertChannel.log => false
  | AlertChannel.webhook => !(config.webhookUrl == "")

/-- How one loop iteration transforms `result.error`: a throwing log handler
overwrites it; everything else leaves it alone. -/
def stepError (env : SendEnv) (ch : AlertChannel) (prev : Option String) : Option String :=
  match ch with
  | AlertChannel.webhook => prev
  | AlertChannel.log =>
    match env.logB with
    | LogBehavior.handlerThrows e => some e
    | _ => prev

theorem fanout_nil (config : ResolvedConfig) (env : SendEnv) (st : FanoutState) :
    fanout config env [] st = st := rfl

theorem fanout_cons (config : ResolvedConfig) (env : SendEnv) (ch : AlertChannel) (chs : List AlertChannel) (st : FanoutState) :
    fanout config env (ch :: chs) st = fanout config env chs (fanoutStep config env st ch) := rfl

theorem fanoutStep_sent (config : ResolvedConfig) (env : SendEnv) (st : FanoutState) (ch : AlertChannel) :
    (fanoutStep config env st ch).result.sent = (st.result.sent || channelSucceeds config env ch) := by
  cases ch with
  | log =>
    cases hb : env.logB <;> simp [fanoutStep, sendToLog, channelSucceeds, logDelivers, hb]
  | webhook =>
    cases hs : (sendToWebhook config env.fetchB).success <;>
      simp [fanoutStep, channelSucceeds, hs]

theorem fanoutStep_mem_channels (config : ResolvedConfig) (env : SendEnv) (st : FanoutState) (ch c : AlertChannel) :
    (c ∈ (fanoutStep config env st ch).result.channels) ↔
      (c ∈ st.result.channels ∨ (c = ch ∧ channelSucceeds config env ch = true)) := by
  cases ch with
  | log =>
    cases hb : env.logB <;>
      simp [fanoutStep, sendToLog, channelSucceeds, logDelivers, hb]
  | webhook =>
    cases hs : (sendToWebhook config env.fetchB).success <;>
      simp [fanoutStep, channelSucceeds, hs]

theorem fanoutStep_error (config : ResolvedConfig) (env : SendEnv) (st : FanoutState) (ch : AlertChannel) :
    (fanoutStep config env st ch).result.error = stepError env ch st.result.error := by
  cases ch with
  | log =>
    cases hb : env.logB <;> simp [fanoutStep, sendToLog, stepError, hb]
  | webhook =>
    cases hs : (sendToWebhook config env.fetchB).success <;>
      simp [fanoutStep, stepError, hs]

theorem fanoutStep_fetched (config : ResolvedConfig) (env : SendEnv) (st : FanoutState) (ch : AlertChannel) :
    (fanoutStep config env st ch).fetched = (st.fetched || channelFetches config ch) := by
  cases ch with
  | log =>
    cases hb : env.logB <;> simp [fanoutStep, sendToLog, channelFetches, hb]
  | webhook =>
    cases hu : (config.webhookUrl == "") with
    | true =>
      simp [fanoutStep, sendToWebhook, channelFetches, hu]
    | false =>
      cases hf : env.fetchB <;>
        simp [fanoutStep, sendToWebhook, channelFetches, hu, hf]

theorem fanout_sent (config : ResolvedConfig) (env : SendEnv) (chs : List AlertChannel) :
    ∀ st : FanoutState,
      (fanout config env chs st).result.sent
        = (st.result.sent || chs.any (channelSucceeds config env)) := by
  induction chs with
  | nil => intro st; simp [fanout_nil]
  | cons ch rest ih =>
    intro st
    rw [fanout_cons, ih, fanoutStep_sent]
    simp [Bool.or_assoc]

theorem fanout_mem_channels (config : ResolvedConfig) (env : SendEnv) (chs : List AlertChannel) :
    ∀ (st : FanoutState) (c : AlertChannel),
      c ∈ (fanout config env chs st).result.channels ↔
        (c ∈ st.result.channels ∨ (c ∈ chs ∧ channelSucceeds config env c = true)) := by
  induction chs with
  | nil => intro st c; simp [fanout_nil]
  | cons ch rest ih =>
    intro st c
    rw [fanout_cons, ih, fanoutStep_mem_channels]
    constructor
    · rintro ((h | ⟨rfl, hs⟩) | ⟨hm, hs⟩)
      · exact Or.inl h
      · exact Or.inr ⟨List.mem_cons_self _ _, hs⟩
      · exact Or.inr ⟨List.mem_cons_of_mem _ hm, hs⟩
    · rintro (h | ⟨hm, hs⟩)
      · exact Or.inl (Or.inl h)
      · rcases List.mem_cons.mp hm with rfl | hm'
        · exact Or.inl (Or.inr ⟨rfl, hs⟩)
        · exact Or.inr ⟨hm', hs⟩

theorem fanout_error_throws (config : ResolvedConfig) (env : SendEnv) (chs : List AlertChannel) (e : String) (hthrow : env.logB = LogBehavior.handlerThrows e) :
    ∀ st : FanoutState,
      (fanout config env chs st).result.error
        = (if AlertChannel.log ∈ chs then some e else st.result.error) := by
  induction chs with
  | nil => intro st; simp [fanout_nil]
  | cons ch rest ih =>
    intro st
    rw [fanout_cons, ih]
    cases ch with
    | log =>
      by_cases hm : AlertChannel.log ∈ rest <;>
        simp [hm, fanoutStep_error, stepError, hthrow]
    | webhook =>
      by_cases hm : AlertChannel.log ∈ rest <;>
        simp [hm, fanoutStep_error, stepError, hthrow]

theorem fanout_error_delivers (config : ResolvedConfig) (env : SendEnv) (chs : List AlertChannel) (hok : logDelivers env.logB = true) :
    ∀ st : FanoutState,
      (fanout config env chs st).result.error = st.result.error := by
  induction chs with
  | nil => intro st; simp [fanout_nil]
  | cons ch rest ih =>
    intro st
    rw [fanout_cons, ih, fanoutStep_error]
    cases ch with
    | log =>
      cases hb : env.logB <;> simp_all [stepError, logDelivers]
    | webhook => rfl

theorem fanout_fetched (config : ResolvedConfig) (env : SendEnv) (chs : List AlertChannel) :
    ∀ st : FanoutState,
      (fanout config env chs st).fetched
        = (st.fetched || chs.any (channelFetches config)) := by
  induction chs with
  | nil => intro st; simp [fanout_nil]
  | cons ch rest ih =>
    intro st
    rw [fanout_cons, ih, fanoutStep_fetched]
    simp [Bool.or_assoc]

/-! ### Helper lemmas about `send` -/

/-- The fan-out accumulator `send` starts from: alertId already assigned,
nothing attempted, nothing fetched. -/
def initState (env : SendEnv) : FanoutState :=
  { result := { emptyResult with alertId := some env.alertId }
    attempted := []
    fetched := false }

theorem send_of_gate_fail (config : ResolvedConfig) (cache : CooldownCache) (env : SendEnv) (options : SendAlertOptions)
    (h : shouldSend config (resolvedSeverity options) = false) :
    send config cache env options
      = { result := emptyResult, cooldown := cache, attempted := [], webhookFetched := false } := by
  simp [send, h]

theorem send_of_cooldown_fail (config : ResolvedConfig) (cache : CooldownCache) (env : SendEnv) (options : SendAlertOptions)
    (hgate : shouldSend config (resolvedSeverity options) = true)
    (hcd : (!options.bypassCooldown && isInCooldown config cache env.now (alertKey options)) = true) :
    send config cache env options
      = { result := emptyResult, cooldown := cache, attempted := [], webhookFetched := false } := by
  simp [send, hgate, hcd]

theorem send_of_gates (config : ResolvedConfig) (cache : CooldownCache) (env : SendEnv) (options : SendAlertOptions)
    (hgate : shouldSend config (resolvedSeverity options) = true)
    (hcd : (!options.bypassCooldown && isInCooldown config cache env.now (alertKey options)) = false) :
    send config cache env options
      = { result := (fanout config env config.channels (initState env)).result
          cooldown :=
            if (fanout config env config.channels (initState env)).result.sent then
              updateCooldown cache (alertKey options) env.now
            else cache
          attempted := (fanout config env config.channels (initState env)).attempted
          webhookFetched := (fanout config env config.channels (initState env)).fetched } := by
  simp [send, hgate, hcd, createAlert, initState]

theorem send_cooldown_eq (config : ResolvedConfig) (cache : CooldownCache) (env : SendEnv) (options : SendAlertOptions) :
    (send config cache env options).cooldown
      = (if (send config cache env options).result.sent then
           updateCooldown cache (alertKey options) env.now
         else cache) := by
  by_cases hgate : shouldSend config (resolvedSeverity options) = true
  · by_cases hcd : (!options.bypassCooldown && isInCooldown config cache env.now (alertKey options)) = true
    · rw [send_of_cooldown_fail config cache env options hgate hcd]
      simp [emptyResult]
    · rw [send_of_gates config cache env options hgate (Bool.eq_false_iff.mpr hcd)]
  · rw [send_of_gate_fail config cache env options (Bool.eq_false_iff.mpr hgate)]
    simp [emptyResult]

theorem isInCooldown_congr (config : ResolvedConfig) (cache1 cache2 : CooldownCache) (now : Int) (k : String)
    (h : List.lookup k cache1 = List.lookup k cache2) :
    isInCooldown config cache1 now k = isInCooldown config cache2 now k := by
  simp [isInCooldown, h]

theorem send_result_congr (config : ResolvedConfig) (cache1 cache2 : CooldownCache) (env : SendEnv) (options : SendAlertOptions)
    (h : List.lookup (alertKey options) cache1 = List.lookup (alertKey options) cache2) :
    (send config cache1 env options).result = (send config cache2 env options).result := by
  have hic := isInCooldown_congr config cache1 cache2 env.now (alertKey options) h
  by_cases hgate : shouldSend config (resolvedSeverity options) = true
  · by_cases hcd : (!options.bypassCooldown && isInCooldown config cache1 env.now (alertKey options)) = true
    · have hcd2 : (!options.bypassCooldown && isInCooldown config cache2 env.now (alertKey options)) = true := by
        rwa [hic] at hcd
      rw [send_of_cooldown_fail config cache1 env options hgate hcd,
          send_of_cooldown_fail config cache2 env options hgate hcd2]
    · have hcd2 : (!options.bypassCooldown && isInCooldown config cache2 env.now (alertKey options)) = false := by
        rw [← hic]
        exact Bool.eq_false_iff.mpr hcd
      rw [send_of_gates config cache1 env options hgate (Bool.eq_false_iff.mpr hcd),
          send_of_gates config cache2 env options hgate hcd2]
  · rw [send_of_gate_fail config cache1 env options (Bool.eq_false_iff.mpr hgate),
        send_of_gate_fail config cache2 env options (Bool.eq_false_iff.mpr hgate)]

theorem shouldSend_critical (config : ResolvedConfig) :
    shouldSend config AlertSeverity.critical = true := by
  have h : severityRank config.minSeverity ≤ severityRank AlertSeverity.critical := by
    cases hms : config.minSeverity <;> simp [severityRank]
  simp only [shouldSend]
  exact decide_eq_true h

theorem alertKey_ne_of_source_ne (o1 o2 : SendAlertOptions)
    (hsrc : resolvedSource o1 ≠ resolvedSource o2) (htitle : o1.title = o2.title) :
    alertKey o1 ≠ alertKey o2 := by
  intro h
  apply hsrc
  unfold alertKey at h
  rw [htitle] at h
  have h2 := congrArg String.data h
  simp [String.data_append] at h2
  exact String.ext h2

/-! ### Claims -/

/-- C2: a `send` whose resolved severity (default `warning`) ranks below
`config.minSeverity` returns `{sent:false, channels:[]}` with no `alertId`
and no `error`, iterates no channel, attempts no webhook POST, and leaves
the cooldown table exactly unchanged — for every configuration, cache,
environment and options. -/
theorem severity_gate_drops_silently (config : ResolvedConfig) (cache : CooldownCache) (env : SendEnv) (options : SendAlertOptions)
    (h : severityRank (resolvedSeverity options) < severityRank config.minSeverity) :
    (send config cache env options).result = emptyResult ∧
    (send config cache env options).cooldown = cache ∧
    (send config cache env options).attempted = [] ∧
    (send config cache env options).webhookFetched = false := by
  have hgate : shouldSend config (resolvedSeverity options) = false := by
    simp only [shouldSend]
    exact decide_eq_false (by omega)
  rw [send_of_gate_fail config cache env options hgate]
  exact ⟨rfl, rfl, rfl, rfl⟩

/-- Witness for C2: `minSeverity = error`, a `warning` alert (the default
severity) is dropped with no state change. -/
theorem severity_gate_drops_silently_witness :
    severityRank (resolvedSeverity { title := "T", message := "M" })
        < severityRank (mkAlertManager { minSeverity := some AlertSeverity.error }).minSeverity ∧
      ((send (mkAlertManager { minSeverity := some AlertSeverity.error }) [("a:b", 5)]
          { now := 10, alertId := "alert-1", timestamp := "t", logB := LogBehavior.defaultConsole, fetchB := FetchBehavior.ok }
          { title := "T", message := "M" }).result = emptyResult ∧
        (send (mkAlertManager { minSeverity := some AlertSeverity.error }) [("a:b", 5)]
          { now := 10, alertId := "alert-1", timestamp := "t", logB := LogBehavior.defaultConsole, fetchB := FetchBehavior.ok }
          { title := "T", message := "M" }).cooldown = [("a:b", 5)] ∧
        (send (mkAlertManager { minSeverity := some AlertSeverity.error }) [("a:b", 5)]
          { now := 10, alertId := "alert-1", timestamp := "t", logB := LogBehavior.defaultConsole, fetchB := FetchBehavior.ok }
          { title := "T", message := "M" }).attempted = [] ∧
        (send (mkAlertManager { minSeverity := some AlertSeverity.error }) [("a:b", 5)]
          { now := 10, alertId := "alert-1", timestamp := "t", logB := LogBehavior.defaultConsole, fetchB := FetchBehavior.ok }
          { title := "T", message := "M" }).webhookFetched = false) :=
  ⟨by decide,
   severity_gate_drops_silently _ _ _ _ (by decide)⟩

/-- C3: after any `send`, the cooldown table is the old table with the entry
for the call's `(source,title)` key set to `now` if `result.sent` is true, and
is exactly the old table otherwise — so a fully-failed send never records a
cooldown timestamp. -/
theorem cooldown_updated_iff_sent (config : ResolvedConfig) (cache : CooldownCache) (env : SendEnv) (options : SendAlertOptions) :
    (send config cache env options).cooldown
      = (if (send config cache env options).result.sent then
           updateCooldown cache (alertKey options) env.now
         else cache) :=
  send_cooldown_eq config cache env options

/-- An all-defaults manager (`new AlertManager()`): minSeverity `warning`,
no webhook, channels `['log']`, cooldown 60 s. -/
def defaultManager : ResolvedConfig := mkAlertManager {}

/-- A benign environment at a given clock: default console logging, 2xx webhook. -/
def envOkAt (now : Int) : SendEnv :=
  { now := now
    alertId := "alert-1"
    timestamp := "2026-01-01T00:00:00.000Z"
    logB := LogBehavior.defaultConsole
    fetchB := FetchBehavior.ok }

/-- C1: after a first `send` that recorded a cooldown timestamp (`sent = true`,
at a non-zero clock), a second `send` with the same resolved `(source,title)`,
`bypassCooldown` unset, issued strictly less than `cooldownSeconds` after the
first, returns `{sent:false, channels:[]}` with no `alertId` — whatever its
severity (as long as it passes the `minSeverity` gate) and message, because the
cooldown key is only `(source,title)`. -/
theorem cooldown_suppresses_second_send (config : ResolvedConfig) (cache : CooldownCache) (env1 env2 : SendEnv) (o1 o2 : SendAlertOptions)
    (hsent : (send config cache env1 o1).result.sent = true)
    (hsrc : resolvedSource o2 = resolvedSource o1)
    (htitle : o2.title = o1.title)
    (hbypass : o2.bypassCooldown = false)
    (hgate : shouldSend config (resolvedSeverity o2) = true)
    (hnz : env1.now ≠ 0)
    (hwin : env2.now - env1.now < config.cooldownSeconds * 1000) :
    (send config (send config cache env1 o1).cooldown env2 o2).result = emptyResult := by
  have hkey : alertKey o2 = alertKey o1 := by
    simp [alertKey, hsrc, htitle]
  have hcool : (send config cache env1 o1).cooldown = updateCooldown cache (alertKey o1) env1.now := by
    rw [send_cooldown_eq, hsent]
    simp
  have hlookup : List.lookup (alertKey o2) (updateCooldown cache (alertKey o1) env1.now) = some env1.now := by
    rw [hkey]
    exact lookup_updateCooldown_self cache (alertKey o1) env1.now
  have hic : isInCooldown config (updateCooldown cache (alertKey o1) env1.now) env2.now (alertKey o2) = true := by
    simp [isInCooldown, hlookup, hnz, hwin]
  have hcd : (!o2.bypassCooldown && isInCooldown config ((send config cache env1 o1).cooldown) env2.now (alertKey o2)) = true := by
    rw [hcool, hbypass, hic]
    rfl
  rw [send_of_cooldown_fail config _ env2 o2 hgate hcd]

/-- Witness for C1: a default manager; an `info`-gate-passing `warning` alert at
t=1000 ms, then a `critical` alert with the same (source,title) but different
message at t=1500 ms — suppressed. -/
theorem cooldown_suppresses_second_send_witness :
    ((send defaultManager [] (envOkAt 1000) { title := "T", message := "M" }).result.sent = true) ∧
    ((send defaultManager
        (send defaultManager [] (envOkAt 1000) { title := "T", message := "M" }).cooldown
        (envOkAt 1500)
        { title := "T", message := "M2", severity := some AlertSeverity.critical }).result = emptyResult) :=
  ⟨by decide,
   cooldown_suppresses_second_send defaultManager [] (envOkAt 1000) (envOkAt 1500)
     { title := "T", message := "M" }
     { title := "T", message := "M2", severity := some AlertSeverity.critical }
     (by decide) (by decide) (by decide) (by decide) (by decide) (by decide) (by decide)⟩

/-- Core of C5: with the log channel configured and delivering, a
`securityIncidentOptions` send always reports `sent = true` — the severity gate
cannot reject `critical` and `bypassCooldown` is `true`. -/
theorem security_incident_send_sent (config : ResolvedConfig) (cache : CooldownCache) (env : SendEnv) (it d : String) (dts : List (String × DetailValue))
    (hch : AlertChannel.log ∈ config.channels)
    (hok : logDelivers env.logB = true) :
    (send config cache env (securityIncidentOptions it d dts)).result.sent = true := by
  have hgate : shouldSend config (resolvedSeverity (securityIncidentOptions it d dts)) = true := by
    have h := shouldSend_critical config
    simpa [resolvedSeverity, securityIncidentOptions] using h
  have hcd : (!(securityIncidentOptions it d dts).bypassCooldown
      && isInCooldown config cache env.now (alertKey (securityIncidentOptions it d dts))) = false := by
    simp [securityIncidentOptions]
  rw [send_of_gates _ _ _ _ hgate hcd]
  rw [fanout_sent]
  simp only [initState, emptyResult, Bool.false_or]
  exact List.any_eq_true.mpr ⟨AlertChannel.log, hch, by simp [channelSucceeds, hok]⟩

/-- C5: `alertSecurityIncident` always passes `severity: critical`,
`source: "security"` and `bypassCooldown: true` to `send`, and two consecutive
calls with the same incident type both return `sent: true` — whatever the
elapsed time between them — provided the log channel is configured and
delivers. -/
theorem security_incident_never_suppressed (config : ResolvedConfig) (cache : CooldownCache) (env1 env2 : SendEnv) (it d1 d2 : String) (dts1 dts2 : List (String × DetailValue))
    (hch : AlertChannel.log ∈ config.channels)
    (h1 : logDelivers env1.logB = true)
    (h2 : logDelivers env2.logB = true) :
    (securityIncidentOptions it d1 dts1).severity = some AlertSeverity.critical ∧
    (securityIncidentOptions it d1 dts1).source = some "security" ∧
    (securityIncidentOptions it d1 dts1).bypassCooldown = true ∧
    (alertSecurityIncident config cache env1 it d1 dts1).result.sent = true ∧
    (alertSecurityIncident config
        (alertSecurityIncident config cache env1 it d1 dts1).cooldown
        env2 it d2 dts2).result.sent = true := by
  refine ⟨rfl, rfl, rfl, ?_, ?_⟩
  · exact security_incident_send_sent config cache env1 it d1 dts1 hch h1
  · exact security_incident_send_sent config _ env2 it d2 dts2 hch h2

/-- Witness for C5: two back-to-back security incidents one millisecond apart
on a default manager (60 s cooldown) both report `sent`. -/
theorem security_incident_never_suppressed_witness :
    (securityIncidentOptions "breach" "d1" []).severity = some AlertSeverity.critical ∧
    (securityIncidentOptions "breach" "d1" []).source = some "security" ∧
    (securityIncidentOptions "breach" "d1" []).bypassCooldown = true ∧
    (alertSecurityIncident defaultManager [] (envOkAt 1000) "breach" "d1" []).result.sent = true ∧
    (alertSecurityIncident defaultManager
        (alertSecurityIncident defaultManager [] (envOkAt 1000) "breach" "d1" []).cooldown
        (envOkAt 1001) "breach" "d2" []).result.sent = true :=
  security_incident_never_suppressed defaultManager [] (envOkAt 1000) (envOkAt 1001)
    "breach" "d1" "d2" [] [] (by decide) (by decide) (by decide)

/-- C6: `alertRateLimitExceeded` truncates the API key to its first 10
characters, so two keys agreeing on those 10 characters produce identical
alert messages and identical detail maps — nothing beyond the 10th character
influences the alert. -/
theorem rate_limit_truncates_api_key (env : SendEnv) (k1 k2 : String) (limit current : Int) (details : List (String × DetailValue))
    (h : k1.take 10 = k2.take 10) :
    (createAlert env (alertRateLimitOptions k1 limit current details)).message
        = (createAlert env (alertRateLimitOptions k2 limit current details)).message ∧
    (createAlert env (alertRateLimitOptions k1 limit current details)).details
        = (createAlert env (alertRateLimitOptions k2 limit current details)).details := by
  constructor <;> simp [createAlert, alertRateLimitOptions, h]

/-- Witness for C6: `"vg_abcdefghijklmnop"` and `"vg_abcdefgXYZ"` share their
first 10 characters and yield identical alert message and details. -/
theorem rate_limit_truncates_api_key_witness :
    ("vg_abcdefghijklmnop".take 10 = "vg_abcdefgXYZ".take 10) ∧
    ((createAlert (envOkAt 0) (alertRateLimitOptions "vg_abcdefghijklmnop" 100 150 [])).message
        = (createAlert (envOkAt 0) (alertRateLimitOptions "vg_abcdefgXYZ" 100 150 [])).message ∧
     (createAlert (envOkAt 0) (alertRateLimitOptions "vg_abcdefghijklmnop" 100 150 [])).details
        = (createAlert (envOkAt 0) (alertRateLimitOptions "vg_abcdefgXYZ" 100 150 [])).details) :=
  ⟨by decide,
   rate_limit_truncates_api_key (envOkAt 0) "vg_abcdefghijklmnop" "vg_abcdefgXYZ" 100 150 [] (by decide)⟩

/-- C7: alerts whose resolved sources differ (same title) have distinct cooldown
keys, and the cooldown entry a first `send` may record never changes the result
of a later `send` for the other source. -/
theorem different_source_never_suppresses (config : ResolvedConfig) (cache : CooldownCache) (env1 env2 : SendEnv) (o1 o2 : SendAlertOptions)
    (hsrc : resolvedSource o1 ≠ resolvedSource o2)
    (htitle : o1.title = o2.title) :
    alertKey o1 ≠ alertKey o2 ∧
    (send config (send config cache env1 o1).cooldown env2 o2).result
      = (send config cache env2 o2).result := by
  have hne := alertKey_ne_of_source_ne o1 o2 hsrc htitle
  refine ⟨hne, ?_⟩
  apply send_result_congr
  rw [send_cooldown_eq]
  by_cases hs : (send config cache env1 o1).result.sent = true
  · rw [hs]
    simp only [if_pos]
    exact lookup_updateCooldown_ne cache (alertKey o1) (alertKey o2) env1.now (Ne.symm hne)
  · rw [Bool.eq_false_iff.mpr hs]
    simp

/-- Witness for C7: sources `"pii_detector"` and `"circuit_breaker"` with the
same title — distinct keys, and the second send's result is as if the first
had never happened. -/
theorem different_source_never_suppresses_witness :
    alertKey { title := "T", message := "M1", source := some "pii_detector" }
        ≠ alertKey { title := "T", message := "M2", source := some "circuit_breaker" } ∧
    (send defaultManager
        (send defaultManager [] (envOkAt 1000) { title := "T", message := "M1", source := some "pii_detector" }).cooldown
        (envOkAt 1500)
        { title := "T", message := "M2", source := some "circuit_breaker" }).result
      = (send defaultManager [] (envOkAt 1500)
        { title := "T", message := "M2", source := some "circuit_breaker" }).result :=
  different_source_never_suppresses defaultManager [] (envOkAt 1000) (envOkAt 1500)
    { title := "T", message := "M1", source := some "pii_detector" }
    { title := "T", message := "M2", source := some "circuit_breaker" }
    (by decide) (by decide)

/-- C8: with an empty `webhookUrl` and both `log` and `webhook` among the
configured channels, a `send` that passes both gates attempts no webhook POST,
returns `sent: true` via the log channel (assumed to deliver), and `webhook`
does not appear in `result.channels` — the missing URL is a per-channel
failure, never an exception (the model's `send` is a total function). -/
theorem empty_webhook_url_no_fetch (config : ResolvedConfig) (cache : CooldownCache) (env : SendEnv) (options : SendAlertOptions)
    (hurl : config.webhookUrl = "")
    (hlog : AlertChannel.log ∈ config.channels)
    (_hweb : AlertChannel.webhook ∈ config.channels)
    (hdeliver : logDelivers env.logB = true)
    (hgate : shouldSend config (resolvedSeverity options) = true)
    (hcd : (!options.bypassCooldown && isInCooldown config cache env.now (alertKey options)) = false) :
    (send config cache env options).webhookFetched = false ∧
    (send config cache env options).result.sent = true ∧
    AlertChannel.log ∈ (send config cache env options).result.channels ∧
    AlertChannel.webhook ∉ (send config cache env options).result.channels := by
  rw [send_of_gates _ _ _ _ hgate hcd]
  refine ⟨?_, ?_, ?_, ?_⟩
  · rw [fanout_fetched]
    simp only [initState, Bool.false_or]
    apply List.any_eq_false.mpr
    intro c hc
    cases c <;> simp [channelFetches, hurl]
  · rw [fanout_sent]
    simp only [initState, emptyResult, Bool.false_or]
    exact List.any_eq_true.mpr ⟨AlertChannel.log, hlog, by simp [channelSucceeds, hdeliver]⟩
  · rw [fanout_mem_channels]
    exact Or.inr ⟨hlog, by simp [channelSucceeds, hdeliver]⟩
  · rw [fanout_mem_channels]
    rintro (habs | ⟨-, habs⟩)
    · simp [initState, emptyResult] at habs
    · simp [channelSucceeds, sendToWebhook, hurl] at habs

/-- Witness for C8: a manager explicitly configured with
`channels: ['log','webhook']` but an empty URL. -/
theorem empty_webhook_url_no_fetch_witness :
    (send (mkAlertManager { channels := some [AlertChannel.log, AlertChannel.webhook] }) [] (envOkAt 1000)
        { title := "T", message := "M" }).webhookFetched = false ∧
    (send (mkAlertManager { channels := some [AlertChannel.log, AlertChannel.webhook] }) [] (envOkAt 1000)
        { title := "T", message := "M" }).result.sent = true ∧
    AlertChannel.log ∈ (send (mkAlertManager { channels := some [AlertChannel.log, AlertChannel.webhook] }) [] (envOkAt 1000)
        { title := "T", message := "M" }).result.channels ∧
    AlertChannel.webhook ∉ (send (mkAlertManager { channels := some [AlertChannel.log, AlertChannel.webhook] }) [] (envOkAt 1000)
        { title := "T", message := "M" }).result.channels :=
  empty_webhook_url_no_fetch (mkAlertManager { channels := some [AlertChannel.log, AlertChannel.webhook] })
    [] (envOkAt 1000) { title := "T", message := "M" }
    (by decide) (by decide) (by decide) (by decide) (by decide) (by decide)

/-- C9: the constructor consulted `webhookEnabled` only to decide whether to
push `webhook` onto `channels`; with `webhookEnabled: false` the caller's
channel list is kept verbatim, and if that list contains `webhook` while
`webhookUrl` is non-empty, every gate-passing `send` attempts a webhook POST —
delivery never rechecks `webhookEnabled`. -/
theorem webhook_enabled_not_rechecked (ms : Option AlertSeverity) (wt : Option WebhookType) (cd : Option Int) (u : String) (chs : List AlertChannel) (cfg : ResolvedConfig) (cache : CooldownCache) (env : SendEnv) (options : SendAlertOptions)
    (hcfg : cfg = mkAlertManager
      { minSeverity := ms, webhookUrl := some u, webhookEnabled := some false
        webhookType := wt, cooldownSeconds := cd, channels := some chs })
    (hu : u ≠ "")
    (hweb : AlertChannel.webhook ∈ chs)
    (hgate : shouldSend cfg (resolvedSeverity options) = true)
    (hcd : (!options.bypassCooldown && isInCooldown cfg cache env.now (alertKey options)) = false) :
    cfg.webhookEnabled = false ∧
    cfg.channels = chs ∧
    cfg.webhookUrl = u ∧
    (send cfg cache env options).webhookFetched = true := by
  have hres : cfg.webhookEnabled = false ∧ cfg.channels = chs ∧ cfg.webhookUrl = u := by
    subst hcfg
    simp [mkAlertManager]
  refine ⟨hres.1, hres.2.1, hres.2.2, ?_⟩
  rw [send_of_gates _ _ _ _ hgate hcd]
  rw [fanout_fetched]
  simp only [initState, Bool.false_or]
  refine List.any_eq_true.mpr ⟨AlertChannel.webhook, ?_, ?_⟩
  · rw [hres.2.1]
    exact hweb
  · simp [channelFetches, hres.2.2]
    exact hu

/-- Witness for C9: `webhookEnabled: false` but `channels: ['webhook']` and a
non-empty URL — the POST is still attempted. -/
theorem webhook_enabled_not_rechecked_witness :
    (mkAlertManager
        { webhookUrl := some "https://example.invalid/hook", webhookEnabled := some false
          channels := some [AlertChannel.webhook] }).webhookEnabled = false ∧
    (mkAlertManager
        { webhookUrl := some "https://example.invalid/hook", webhookEnabled := some false
          channels := some [AlertChannel.webhook] }).channels = [AlertChannel.webhook] ∧
    (mkAlertManager
        { webhookUrl := some "https://example.invalid/hook", webhookEnabled := some false
          channels := some [AlertChannel.webhook] }).webhookUrl = "https://example.invalid/hook" ∧
    (send (mkAlertManager
        { webhookUrl := some "https://example.invalid/hook", webhookEnabled := some false
          channels := some [AlertChannel.webhook] }) [] (envOkAt 1000)
        { title := "T", message := "M" }).webhookFetched = true :=
  webhook_enabled_not_rechecked none none none "https://example.invalid/hook" [AlertChannel.webhook]
    (mkAlertManager
      { webhookUrl := some "https://example.invalid/hook", webhookEnabled := some false
        channels := some [AlertChannel.webhook] })
    [] (envOkAt 1000) { title := "T", message := "M" }
    (by decide) (by decide) (by decide) (by decide) (by decide)

/-- C10: when a registered custom log handler throws, `send` absorbs the
exception: the call still returns (total function), `log` is not recorded in
`result.channels`, and `result.error` carries the stringified exception. -/
theorem throwing_log_handler_is_caught (config : ResolvedConfig) (cache : CooldownCache) (env : SendEnv) (options : SendAlertOptions) (e : String)
    (hthrow : env.logB = LogBehavior.handlerThrows e)
    (hmem : AlertChannel.log ∈ config.channels)
    (hgate : shouldSend config (resolvedSeverity options) = true)
    (hcd : (!options.bypassCooldown && isInCooldown config cache env.now (alertKey options)) = false) :
    (send config cache env options).result.error = some e ∧
    AlertChannel.log ∉ (send config cache env options).result.channels := by
  rw [send_of_gates _ _ _ _ hgate hcd]
  constructor
  · rw [fanout_error_throws config env config.channels e hthrow]
    simp [hmem]
  · rw [fanout_mem_channels]
    rintro (habs | ⟨-, habs⟩)
    · simp [initState, emptyResult] at habs
    · simp [channelSucceeds, logDelivers, hthrow] at habs

/-- Witness for C10: a handler that throws `Error: boom`; the error surfaces in
`result.error` and `log` is missing from the delivered channels. -/
theorem throwing_log_handler_is_caught_witness :
    (send defaultManager []
        { now := 1000, alertId := "alert-1", timestamp := "t"
          logB := LogBehavior.handlerThrows "Error: boom", fetchB := FetchBehavior.ok }
        { title := "T", message := "M" }).result.error = some "Error: boom" ∧
    AlertChannel.log ∉ (send defaultManager []
        { now := 1000, alertId := "alert-1", timestamp := "t"
          logB := LogBehavior.handlerThrows "Error: boom", fetchB := FetchBehavior.ok }
        { title := "T", message := "M" }).result.channels :=
  throwing_log_handler_is_caught defaultManager []
    { now := 1000, alertId := "alert-1", timestamp := "t"
      logB := LogBehavior.handlerThrows "Error: boom", fetchB := FetchBehavior.ok }
    { title := "T", message := "M" } "Error: boom"
    (by decide) (by decide) (by decide) (by decide)

/-- Counterexample to C4 as stated: on a slack-webhook manager whose fetch
fails with a network error, the log channel succeeds and the webhook channel
fails (the POST was attempted and `sendToWebhook` returned `false`), yet
`result.error` is `none` — `sendToWebhook` absorbs its own failure instead of
surfacing it, so "exactly one channel fails and one succeeds" does not imply a
non-empty `result.error`. -/
theorem one_failed_channel_error_counterexample :
    (mkAlertManager { webhookUrl := some "https://example.invalid/hook", webhookEnabled := some true }).channels
        = [AlertChannel.log, AlertChannel.webhook] ∧
    (sendToWebhook (mkAlertManager { webhookUrl := some "https://example.invalid/hook", webhookEnabled := some true })
        (FetchBehavior.networkError "TypeError: fetch failed")).success = false ∧
    (send (mkAlertManager { webhookUrl := some "https://example.invalid/hook", webhookEnabled := some true }) []
        { now := 1000, alertId := "alert-1", timestamp := "t"
          logB := LogBehavior.defaultConsole
          fetchB := FetchBehavior.networkError "TypeError: fetch failed" }
        { title := "T", message := "M" }).result.sent = true ∧
    (send (mkAlertManager { webhookUrl := some "https://example.invalid/hook", webhookEnabled := some true }) []
        { now := 1000, alertId := "alert-1", timestamp := "t"
          logB := LogBehavior.defaultConsole
          fetchB := FetchBehavior.networkError "TypeError: fetch failed" }
        { title := "T", message := "M" }).result.channels = [AlertChannel.log] ∧
    (send (mkAlertManager { webhookUrl := some "https://example.invalid/hook", webhookEnabled := some true }) []
        { now := 1000, alertId := "alert-1", timestamp := "t"
          logB := LogBehavior.defaultConsole
          fetchB := FetchBehavior.networkError "TypeError: fetch failed" }
        { title := "T", message := "M" }).result.error = none := by
  decide

/-- C4 (amended): with channels `[log, webhook]` and both gates passed, if
exactly one channel fails and one succeeds then `sent` is true and
`result.channels` lists only the succeeding channel; `result.error` carries the
failing channel's error exactly when the failing channel is the log channel (a
throwing custom handler caught by the fan-out loop) — a webhook failure is
absorbed inside `sendToWebhook` and leaves `result.error` unset. -/
theorem one_failed_channel_partial_success (config : ResolvedConfig) (cache : CooldownCache) (env : SendEnv) (options : SendAlertOptions) (e : String)
    (hch : config.channels = [AlertChannel.log, AlertChannel.webhook])
    (hgate : shouldSend config (resolvedSeverity options) = true)
    (hcd : (!options.bypassCooldown && isInCooldown config cache env.now (alertKey options)) = false) :
    ((env.logB = LogBehavior.handlerThrows e ∧ (sendToWebhook config env.fetchB).success = true) →
      ((send config cache env options).result.sent = true ∧
       (send config cache env options).result.channels = [AlertChannel.webhook] ∧
       (send config cache env options).result.error = some e)) ∧
    ((logDelivers env.logB = true ∧ (sendToWebhook config env.fetchB).success = false) →
      ((send config cache env options).result.sent = true ∧
       (send config cache env options).result.channels = [AlertChannel.log] ∧
       (send config cache env options).result.error = none)) := by
  rw [send_of_gates _ _ _ _ hgate hcd, hch]
  constructor
  · rintro ⟨hthrow, hws⟩
    simp [fanout, fanoutStep, sendToLog, hthrow, hws, initState, emptyResult]
  · rintro ⟨hok, hws⟩
    cases hb : env.logB <;> rw [hb] at hok <;> simp [logDelivers] at hok <;>
      simp [fanout, fanoutStep, sendToLog, hws, hb, initState, emptyResult]

/-- Witness for C4 (amended): a throwing log handler with a delivering webhook
— `sent: true`, only `webhook` listed, error carried; and the dual case of the
counterexample input, where the webhook fails and the error stays unset. -/
theorem one_failed_channel_partial_success_witness :
    ((send (mkAlertManager { webhookUrl := some "https://example.invalid/hook", webhookEnabled := some true }) []
        { now := 1000, alertId := "alert-1", timestamp := "t"
          logB := LogBehavior.handlerThrows "Error: boom", fetchB := FetchBehavior.ok }
        { title := "T", message := "M" }).result.sent = true ∧
     (send (mkAlertManager { webhookUrl := some "https://example.invalid/hook", webhookEnabled := some true }) []
        { now := 1000, alertId := "alert-1", timestamp := "t"
          logB := LogBehavior.handlerThrows "Error: boom", fetchB := FetchBehavior.ok }
        { title := "T", message := "M" }).result.channels = [AlertChannel.webhook] ∧
     (send (mkAlertManager { webhookUrl := some "https://example.invalid/hook", webhookEnabled := some true }) []
        { now := 1000, alertId := "alert-1", timestamp := "t"
          logB := LogBehavior.handlerThrows "Error: boom", fetchB := FetchBehavior.ok }
        { title := "T", message := "M" }).result.error = some "Error: boom") :=
  (one_failed_channel_partial_success
    (mkAlertManager { webhookUrl := some "https://example.invalid/hook", webhookEnabled := some true }) []
    { now := 1000, alertId := "alert-1", timestamp := "t"
      logB := LogBehavior.handlerThrows "Error: boom", fetchB := FetchBehavior.ok }
    { title := "T", message := "M" } "Error: boom"
    (by decide) (by decide) (by decide)).1 ⟨rfl, by decide⟩
